import Mathlib

/-!
Verification of the audiblez synthesis-orchestration and queue subsystem.

This file gives a shallow embedding, in Lean, of the pure decision logic of
`audiblez/core.py`, `audiblez/database.py` and `audiblez/ui.py`:

* the chapter selector (`is_chapter`, `find_good_chapters`),
* the text filter engine (`apply_filters`),
* the synthesis progress tracker and the per-chapter synthesis step
  (`gen_audio_segments` and the chapter loop of `main`),
* the persistent queue order computation (`get_max_queue_order`,
  `add_item_to_queue`, `remove_queue_item`),
* the staging insert (`add_staged_book`),
* the queue processor driver (`process_next_queue_item`,
  `on_core_finished`, `_finalize_queue_processing`) and the schedule
  trigger (`on_run_queue`, `on_check_schedule_timer`).

External collaborators (the TTS engine, spacy sentence segmentation, the
filesystem, SQLite errors) are abstracted as explicit function parameters;
fallible Python operations (integer division by zero, uncaught exceptions)
are modelled with `Option`, where `none` stands for a raised exception.
-/

namespace Audiblez

/-! ## Python string primitives -/

/-- The whitespace characters stripped by Python `str.strip()` (ASCII range,
which is all the source ever feeds it). -/
def pyIsSpace (c : Char) : Bool :=
  c = ' ' || c = '\t' || c = '\n' || c = '\r' || c = '\x0B' || c = '\x0C'

/-- Python `str.strip()` on a character list. -/
def pyStripList (s : List Char) : List Char :=
  ((s.dropWhile pyIsSpace).reverse.dropWhile pyIsSpace).reverse

/-- Python `str.strip()`. -/
def pyStrip (s : String) : String :=
  ⟨pyStripList s.data⟩

/-- Whether character list `p` occurs at the head of `s`. -/
def headMatches : List Char → List Char → Bool
  | [], _ => true
  | _ :: _, [] => false
  | p :: ps, c :: cs => p = c && headMatches ps cs

/-- Python `pat in s` (substring occurrence) on character lists. -/
def hasSubstrList (pat : List Char) : List Char → Bool
  | [] => headMatches pat []
  | c :: rest => headMatches pat (c :: rest) || hasSubstrList pat rest

/-- Python `pat in s` (substring occurrence) on strings. -/
def hasSubstr (pat s : String) : Bool :=
  hasSubstrList pat.data s.data

/-- Drop character list `p` from the head of `s`, or fail. -/
def dropTok : List Char → List Char → Option (List Char)
  | [], s => some s
  | _ :: _, [] => none
  | p :: ps, c :: cs => if c = p then dropTok ps cs else none

/-- Whether `s` begins with the token `tok`, optionally followed by an
underscore, followed by a decimal digit: the anchored form of the
`re.search(tok + r'_?\d{1,3}', name)` patterns of `is_chapter`
(`re.search` succeeds exactly when at least one digit follows, so the
upper bound 3 of the repetition does not affect matching). -/
def tokDigitAt (tok : List Char) (s : List Char) : Bool :=
  match dropTok tok s with
  | none => false
  | some rest =>
    match rest with
    | [] => false
    | c :: rest2 =>
      if c = '_' then
        match rest2 with
        | [] => false
        | d :: _ => d.isDigit
      else c.isDigit

/-- `re.search(tok + r'_?\d{1,3}', s)` viewed as a Bool: the anchored
pattern matches at some position of `s`. -/
def tokDigitSearch (tok : List Char) : List Char → Bool
  | [] => false
  | c :: rest => tokDigitAt tok (c :: rest) || tokDigitSearch tok rest

/-! ## Chapter Selector (`core.py`: `is_chapter`, `find_good_chapters`) -/

/-- One extracted document chapter as the selector sees it: its identifying
name (`get_name()`), its extracted text, and whether it is an
`ITEM_DOCUMENT` (`get_type()` check). -/
structure DocChapter where
  name : String
  extracted_text : String
  isDocument : Bool
deriving DecidableEq

/-- `core.py` `is_chapter`: the text exceeds 100 characters and the
lowercased name contains "chapter" or matches one of the
part/split/ch/chap patterns. -/
def is_chapter (c : DocChapter) : Bool :=
  let name := (c.name.toLower).data
  decide (100 < c.extracted_text.length) &&
    (hasSubstrList ("chapter").data name
      || tokDigitSearch ("part").data name
      || tokDigitSearch ("split").data name
      || tokDigitSearch ("ch").data name
      || tokDigitSearch ("chap").data name)

/-- `core.py` `find_good_chapters`: keep the `ITEM_DOCUMENT` chapters that
satisfy `is_chapter`; if none do, fall back to every `ITEM_DOCUMENT`
chapter with more than 10 characters of text. -/
def find_good_chapters (document_chapters : List DocChapter) : List DocChapter :=
  let chapters := document_chapters.filter (fun c => c.isDocument && is_chapter c)
  if chapters.isEmpty then
    document_chapters.filter (fun c => c.isDocument && decide (10 < c.extracted_text.length))
  else chapters

/-! ## Text Filter Engine (`core.py`: `apply_filters`) -/

/-- One parsed filter rule: trigger patterns and a replacement. -/
structure FilterRule where
  patterns : List String
  replacement : String
deriving DecidableEq

/-- Split a character list at the first `'|'`, Python `line.split('|', 1)`
restricted to the case where the separator occurs; `none` when it does not. -/
def splitAtBar : List Char → List Char → Option (List Char × List Char)
  | _, [] => none
  | acc, c :: rest =>
    if c = '|' then some (acc.reverse, rest) else splitAtBar (c :: acc) rest

/-- Python `s.split(',')`: split at every comma. -/
def splitAtCommas : List Char → List Char → List (List Char)
  | acc, [] => [acc.reverse]
  | acc, c :: rest =>
    if c = ',' then acc.reverse :: splitAtCommas [] rest else splitAtCommas (c :: acc) rest

/-- Parse one line of the filter file, following `_process_rules_from_stream`
in `apply_filters`: strip the line; skip blank lines and `#` comments; skip
lines without a `'|'`; split the part before the first `'|'` at commas,
strip each piece and drop the empty ones; skip the line when no pattern
remains.  `none` means the line contributes no rule (it is malformed or a
comment). -/
def parseFilterLine (line_content : String) : Option FilterRule :=
  let line := pyStrip line_content
  if line.data = [] then none
  else if headMatches ("#").data line.data then none
  else
    match splitAtBar [] line.data with
    | none => none
    | some (patterns_str, replacement) =>
      let patterns := ((splitAtCommas [] patterns_str).map pyStripList).filter (fun p => p ≠ [])
      if patterns = [] then none
      else some ⟨patterns.map (fun p => (⟨p⟩ : String)), (⟨replacement⟩ : String)⟩

/-- Collect the valid rules of a filter file, in file order. -/
def parseFilterRules (lines : List String) : List FilterRule :=
  lines.filterMap parseFilterLine

/-- Apply a single rule: for each of its patterns in list order, if the
pattern occurs in the text, replace every occurrence with the rule's
replacement (Python `text.replace(pattern, replacement)`). -/
def applyOneRule (text : String) (r : FilterRule) : String :=
  r.patterns.foldl
    (fun t p => if hasSubstr p t then t.replace p r.replacement else t) text

/-- Apply all rules in file order. -/
def applyFilterRules (rules : List FilterRule) (text : String) : String :=
  rules.foldl applyOneRule text

/-- `core.py` `apply_filters`, with the rule-source resolution abstracted:
`source = none` models every path on which no readable rule file was found
(user path missing, package resource missing, last-resort path missing — all
of which return the input text unchanged), and `source = some lines` models a
resolved rule file with the given lines (an empty file is `some []`, which the
code also answers by returning the input unchanged). -/
def apply_filters (source : Option (List String)) (text : String) : String :=
  match source with
  | none => text
  | some lines => applyFilterRules (parseFilterRules lines) text

/-! ## Synthesis Progress Tracker (`core.py`: `main` stats, `gen_audio_segments`) -/

/-- Python `//` on naturals: floor division, raising `ZeroDivisionError`
(modelled by `none`) when the divisor is zero.  The source computes
`stats.processed_chars * 100 // stats.total_chars` with no guard. -/
def pyFloorDiv (a b : Nat) : Option Nat :=
  if b = 0 then none else some (a / b)

/-- The `stats` SimpleNamespace of `core.main`: totals and throughput set
before the chapter loop, `progress`/`eta` updated per sentence in
`gen_audio_segments`. -/
structure SynthStats where
  total_chars : Nat
  processed_chars : Nat
  chars_per_sec : ℚ
  progress : Nat
  eta : ℚ
deriving DecidableEq

/-- `eta = (total - processed) / throughput`, exactly the expression of
`core.py` line 310 (and line 181 for the initial estimate). -/
def etaOf (total processed : Nat) (throughput : ℚ) : ℚ :=
  ((total : ℚ) - (processed : ℚ)) / throughput

/-- The per-sentence stats update of `gen_audio_segments`:
`processed_chars += len(sent.text)`,
`progress = processed_chars * 100 // total_chars`,
`eta = (total_chars - processed_chars) / chars_per_sec`.
`none` models the `ZeroDivisionError` raised when `total_chars` is zero. -/
def processSentence (st : SynthStats) (sentLen : Nat) : Option SynthStats :=
  let p := st.processed_chars + sentLen
  match pyFloorDiv (p * 100) st.total_chars with
  | none => none
  | some pr =>
    some { st with
      processed_chars := p
      progress := pr
      eta := etaOf st.total_chars p st.chars_per_sec }

/-- A raw audio buffer produced by the TTS pipeline (contents opaque). -/
abbrev AudioBuf := List Int

/-- `core.py` `gen_audio_segments`, with the external sentence segmentation
already applied (the caller passes the sentence list) and the TTS pipeline
abstracted as `tts`: for each sentence append its audio buffers and perform
the stats update; `none` propagates the `ZeroDivisionError` of the update. -/
def gen_audio_segments (tts : String → List AudioBuf) (sentences : List String)
    (st : SynthStats) : Option (List AudioBuf × SynthStats) :=
  sentences.foldlM
    (fun acc s =>
      (processSentence acc.2 s.length).map (fun st2 => (acc.1 ++ tts s, st2)))
    ([], st)

/-! ## Chapter Synthesis Step (`core.py`: the chapter loop of `main`) -/

/-- The per-chapter output directory, as a map from already-written output
paths to their audio contents. -/
abbrev WavStore := List (String × AudioBuf)

/-- `Path(chapter_wav_path).exists()`. -/
def fsExists (fs : WavStore) (path : String) : Bool :=
  fs.any (fun e => e.1 = path)

/-- `soundfile.write(chapter_wav_path, final_audio, sample_rate)`. -/
def fsWrite (fs : WavStore) (path : String) (a : AudioBuf) : WavStore :=
  (path, a) :: fs

/-- Read back a written chapter file. -/
def fsRead (fs : WavStore) (path : String) : Option AudioBuf :=
  (fs.find? (fun e => e.1 = path)).map (fun e => e.2)

/-- The lifecycle events `main` posts per chapter
(`CORE_CHAPTER_STARTED`, `CORE_CHAPTER_FINISHED`). -/
inductive CoreEvent
  | chapterStarted
  | chapterFinished
deriving DecidableEq

/-- The intro text `f'{title} – {creator}.\n\n'` prepended in `main`
when `i == 1`. -/
def introText (title creator : String) : String :=
  title ++ " – " ++ creator ++ ".\n\n"

/-- The text `main` puts through filtering and synthesis for the chapter at
position `i` (1-based): the stored chapter text, with the intro text
prepended exactly when `i == 1`. -/
def chapterText (i : Nat) (title creator rawText : String) : String :=
  if i = 1 then introText title creator ++ rawText else rawText

/-- The observable outcome of one iteration of the chapter loop of `main`. -/
structure StepOut where
  fs : WavStore
  stats : SynthStats
  events : List CoreEvent
  genCalls : Nat
  wrote : Bool
deriving DecidableEq

/-- One iteration of the chapter loop of `core.main` (lines 187-255):
build the chapter text (intro prepended for the first chapter), filter it,
and then

* if the output path already exists: add the unfiltered text length to
  `processed_chars`, post `CORE_CHAPTER_FINISHED`, and continue — no
  synthesis, no write;
* else if the stripped filtered text is shorter than 10 characters: skip the
  chapter entirely (no events, no write, no synthesis);
* otherwise post `CORE_CHAPTER_STARTED` and run `gen_audio_segments`
  (`genCalls` counts these invocations); when it yields buffers, concatenate
  and write them to the output path and post `CORE_CHAPTER_FINISHED`; when it
  yields none, write nothing.

`applyF` abstracts `apply_filters` with its resolved rule source, `sentSplit`
the spacy sentencizer, `tts` the Kokoro pipeline.  `none` propagates the
unguarded division by zero inside the stats update. -/
def chapterStep (applyF : String → String) (sentSplit : String → List String)
    (tts : String → List AudioBuf) (i : Nat) (title creator rawText path : String)
    (fs : WavStore) (st : SynthStats) : Option StepOut :=
  let text := chapterText i title creator rawText
  let filtered := applyF text
  if fsExists fs path then
    some ⟨fs, { st with processed_chars := st.processed_chars + text.length },
          [CoreEvent.chapterFinished], 0, false⟩
  else if (pyStrip filtered).length < 10 then
    some ⟨fs, st, [], 0, false⟩
  else
    match gen_audio_segments tts (sentSplit filtered) st with
    | none => none
    | some (segs, st2) =>
      if segs.isEmpty then
        some ⟨fs, st2, [CoreEvent.chapterStarted], 1, false⟩
      else
        some ⟨fsWrite fs path segs.flatten, st2,
              [CoreEvent.chapterStarted, CoreEvent.chapterFinished], 1, true⟩

/-! ## Persistent Job Store: queue ordering
(`database.py`: `get_max_queue_order`, `add_item_to_queue`,
`remove_queue_item`) -/

/-- One `synthesis_queue` row, reduced to the columns the ordering claims
are about: the AUTOINCREMENT id and the `queue_order` value. -/
structure QueueRow where
  id : Nat
  queue_order : Nat
deriving DecidableEq

/-- The `synthesis_queue` table together with the next AUTOINCREMENT id
(SQLite never reuses these). -/
structure QueueTable where
  rows : List QueueRow
  nextId : Nat
deriving DecidableEq

/-- `database.py` `get_max_queue_order`:
`SELECT MAX(queue_order) FROM synthesis_queue`, with `0` when the table is
empty (the `NULL` case of the source). -/
def get_max_queue_order (t : QueueTable) : Nat :=
  t.rows.foldl (fun m r => max m r.queue_order) 0

/-- `database.py` `add_item_to_queue`, reduced to its order computation and
insert: `new_queue_order = get_max_queue_order(conn) + 1`, then the row is
inserted with that order.  Returns the new table, the new row id and the
assigned order. -/
def add_item_to_queue (t : QueueTable) : QueueTable × Nat × Nat :=
  let new_queue_order := get_max_queue_order t + 1
  (⟨t.rows ++ [⟨t.nextId, new_queue_order⟩], t.nextId + 1⟩, t.nextId, new_queue_order)

/-- `database.py` `remove_queue_item`:
`DELETE FROM synthesis_queue WHERE id = ?`. -/
def remove_queue_item (t : QueueTable) (queue_item_id : Nat) : QueueTable :=
  { t with rows := t.rows.filter (fun r => r.id ≠ queue_item_id) }

/-- An interleaving step against the queue table. -/
inductive QueueOp
  | insert
  | remove (id : Nat)
deriving DecidableEq

/-- Apply one interleaving step. -/
def applyQueueOp (t : QueueTable) : QueueOp → QueueTable
  | QueueOp.insert => (add_item_to_queue t).1
  | QueueOp.remove id => remove_queue_item t id

/-- Run an interleaving of inserts and removes. -/
def applyQueueOps (t : QueueTable) (ops : List QueueOp) : QueueTable :=
  ops.foldl applyQueueOp t

/-- The empty `synthesis_queue` table. -/
def emptyQueueTable : QueueTable := ⟨[], 1⟩

/-- The sequence of order values assigned by the inserts of an interleaving,
in execution order. -/
def assignedOrders (t : QueueTable) : List QueueOp → List Nat
  | [] => []
  | QueueOp.insert :: ops =>
    (add_item_to_queue t).2.2 :: assignedOrders (add_item_to_queue t).1 ops
  | QueueOp.remove id :: ops => assignedOrders (remove_queue_item t id) ops

/-! ## Persistent Job Store: staging insert
(`database.py`: `add_staged_book`, `create_tables`) -/

/-- One `staged_books` row (`source_path` carries a UNIQUE constraint). -/
structure StagedBookRow where
  id : Nat
  title : String
  author : String
  source_path : String
  output_folder : String
  final_compilation : Bool
deriving DecidableEq

/-- One `staged_chapters` row. -/
structure StagedChapterRow where
  id : Nat
  book_id : Nat
  chapter_number : Nat
  title : String
  text_content : String
  is_selected_for_synthesis : Bool
deriving DecidableEq

/-- The two staging tables and their AUTOINCREMENT counters. -/
structure StagingStore where
  books : List StagedBookRow
  chapters : List StagedChapterRow
  nextBookId : Nat
  nextChapterId : Nat
deriving DecidableEq

/-- One element of the `chapters` argument of `add_staged_book`. -/
structure ChapterInput where
  chapter_number : Nat
  title : String
  text_content : String
  is_selected_for_synthesis : Bool
deriving DecidableEq

/-- The two error classes `add_staged_book` distinguishes with separate
`except` clauses: `sqlite3.IntegrityError` (UNIQUE/foreign-key violation)
and any other `sqlite3.Error` (general store failure). -/
inductive StoreError
  | integrityViolation
  | generalFailure
deriving DecidableEq

/-- `database.py` `add_staged_book`: inside one transaction, insert the book
row and then all its chapter rows, committing at the end.  `ioFailure`
abstracts an `sqlite3.Error` raised by the store itself (disk I/O etc.); a
duplicate `source_path` raises `sqlite3.IntegrityError` at the book insert.
Both `except` clauses roll the transaction back (the store is unchanged) and
return `None` for the book id, but through distinct handlers — the result's
third component records which handler ran. -/
def add_staged_book (ioFailure : Bool) (db : StagingStore)
    (title author source_path output_folder : String) (chapters : List ChapterInput) :
    StagingStore × Option Nat × Option StoreError :=
  if ioFailure then (db, none, some StoreError.generalFailure)
  else if db.books.any (fun b => b.source_path = source_path) then
    (db, none, some StoreError.integrityViolation)
  else
    let book_id := db.nextBookId
    let book : StagedBookRow := ⟨book_id, title, author, source_path, output_folder, false⟩
    let newChapters := chapters.enum.map (fun kc =>
      (⟨db.nextChapterId + kc.1, book_id, kc.2.chapter_number, kc.2.title,
        kc.2.text_content, kc.2.is_selected_for_synthesis⟩ : StagedChapterRow))
    (⟨db.books ++ [book], db.chapters ++ newChapters,
      book_id + 1, db.nextChapterId + chapters.length⟩, some book_id, none)

/-! ## Queue Processor driver
(`ui.py`: `process_next_queue_item`, `on_core_finished`,
`_finalize_queue_processing`) -/

/-- Python truthiness of an optional string (`None` and `''` are falsy). -/
def truthyStr : Option String → Bool
  | none => false
  | some s => s ≠ ""

/-- One `queued_chapters` row as `get_queued_items` returns it. -/
structure QueuedChapterRow where
  staged_chapter_id : Option Nat
  title : String
  text_content : Option String
deriving DecidableEq

/-- The synthesis settings blob of a queue item.  `speed` is `none` when the
key is missing, `some none` when present but not parseable as a float
(`float(speed_str)` raises), `some (some q)` when valid. -/
structure QueueSettings where
  voice : Option String
  speed : Option (Option ℚ)
  output_folder : Option String
deriving DecidableEq

/-- The settings validation of `process_next_queue_item` (the `fail_item`
checks, in source order): missing/empty voice, missing speed, unparsable
speed, missing/empty output folder.  `some reason` is the failure reason. -/
def validateSettings (s : QueueSettings) : Option String :=
  if truthyStr s.voice = false then some ("Missing voice setting")
  else
    match s.speed with
    | none => some ("Missing speed setting")
    | some none => some ("Invalid speed setting")
    | some (some _) =>
      if truthyStr s.output_folder = false then some ("Missing output_folder setting")
      else none

/-- One `synthesis_queue` item as the driver sees it (from
`db.get_queued_items()`), with its chapters. -/
structure QueueItemRow where
  id : Nat
  queue_order : Nat
  book_title : String
  source_path : Option String
  staged_book_id : Option Nat
  settings : QueueSettings
  chapters : List QueuedChapterRow
deriving DecidableEq

/-- Chapter text resolution of `process_next_queue_item`: start from the
inline `text_content`; when that is falsy (`None` or empty) and a
`staged_chapter_id` is present, replace it with
`db.get_chapter_text_content` (which may itself return `None`).  The
chapter is skipped exactly when the result is `none` (an empty inline
string with no reference survives). -/
def resolveChapterText (fetch : Nat → Option String) (ch : QueuedChapterRow) :
    Option String :=
  if truthyStr ch.text_content then ch.text_content
  else
    match ch.staged_chapter_id with
    | some sid => fetch sid
    | none => ch.text_content

/-- The external collaborators of one driver run: `fetch` is
`db.get_chapter_text_content`, and `synthOutcome item_id` is the
`error_message` (or success, `none`) that `CoreThread`/`core.main` reports
to `on_core_finished` for that item. -/
structure QueueDriverEnv where
  fetch : Nat → Option String
  synthOutcome : Nat → Option String

/-- The driver's state: the in-memory queue snapshot, the index of the item
being processed, the `queue_processing_active` flag, the last status written
per item id to the store (`update_queue_item_status`) and to the in-memory
item dicts, the ids for which `CoreThread` was started (in order), the ids
visited by the loop (in order), the ids purged by
`_finalize_queue_processing`, and whether the run died on the undefined
`db.get_staged_book_details` (an `AttributeError` the source would raise for
any item with a truthy `staged_book_id`). -/
structure QueueDriverState where
  items : List QueueItemRow
  idx : Nat
  active : Bool
  dbStatus : List (Nat × String)
  localStatus : List (Nat × String)
  synthStarted : List Nat
  visited : List Nat
  purged : List Nat
  crashed : Bool
deriving DecidableEq

/-- Record a status write; the newest write for an id shadows older ones. -/
def setStatus (log : List (Nat × String)) (id : Nat) (s : String) :
    List (Nat × String) :=
  (id, s) :: log

/-- The last status written for an id, if any. -/
def statusOf (log : List (Nat × String)) (id : Nat) : Option String :=
  (log.find? (fun e => e.1 = id)).map (fun e => e.2)

/-- `ui.py` `_finalize_queue_processing`: clear
`queue_processing_active`, and purge from the store every item whose
in-memory status string starts with the completed or error marker. -/
def finalizeQueue (st : QueueDriverState) : QueueDriverState :=
  { st with
    active := false
    purged := (st.items.filter (fun it =>
      match statusOf st.localStatus it.id with
      | some s => headMatches ("✅").data s.data || headMatches ("⚠️").data s.data
      | none => false)).map (fun it => it.id) }

/-- The driver loop: `process_next_queue_item` chained through
`on_core_finished`, one fuel unit per queue item.  For the item at `idx`:

* mark it `in_progress` in the store and in memory;
* resolve its chapters (`resolveChapterText`); if none resolve, mark
  `error` and advance without starting synthesis;
* if the item has a truthy `staged_book_id`, the source calls the undefined
  `db.get_staged_book_details` (either at the `file_path` fallback or at the
  author lookup) and dies with an `AttributeError` — modelled by `crashed`;
* if the `source_path` is falsy (and no staged book id), record the
  missing-path error only in memory (the source skips the store write on
  this branch) and advance;
* validate the settings; on failure mark `error` and advance;
* otherwise start `CoreThread` and, per `on_core_finished`, mark
  `completed` (or `error` when the run reports an error message) and
  advance.

Past the last item, `_finalize_queue_processing` runs. -/
def runQueueStep (env : QueueDriverEnv) : Nat → QueueDriverState → QueueDriverState
  | 0, st => st
  | fuel + 1, st =>
    if st.active = false then finalizeQueue st
    else if h : st.idx < st.items.length then
      let item := st.items[st.idx]
      let st1 := { st with
        dbStatus := setStatus st.dbStatus item.id ("in_progress")
        localStatus := setStatus st.localStatus item.id ("⏳ In Progress")
        visited := st.visited ++ [item.id] }
      let texts := item.chapters.filterMap (resolveChapterText env.fetch)
      if texts.isEmpty then
        runQueueStep env fuel { st1 with
          dbStatus := setStatus st1.dbStatus item.id ("error")
          localStatus := setStatus st1.localStatus item.id ("⚠️ Error (No Chapters Text)")
          idx := st1.idx + 1 }
      else if item.staged_book_id.isSome then
        { st1 with crashed := true }
      else if truthyStr item.source_path = false then
        runQueueStep env fuel { st1 with
          localStatus := setStatus st1.localStatus item.id ("⚠️ Error (Missing Path)")
          idx := st1.idx + 1 }
      else
        match validateSettings item.settings with
        | some reason =>
          runQueueStep env fuel { st1 with
            dbStatus := setStatus st1.dbStatus item.id ("error")
            localStatus := setStatus st1.localStatus item.id ("⚠️ Error (" ++ reason ++ ")")
            idx := st1.idx + 1 }
        | none =>
          let st2 := { st1 with synthStarted := st1.synthStarted ++ [item.id] }
          match env.synthOutcome item.id with
          | some msg =>
            runQueueStep env fuel { st2 with
              dbStatus := setStatus st2.dbStatus item.id ("error")
              localStatus := setStatus st2.localStatus item.id ("⚠️ Error (" ++ msg ++ ")")
              idx := st2.idx + 1 }
          | none =>
            runQueueStep env fuel { st2 with
              dbStatus := setStatus st2.dbStatus item.id ("completed")
              localStatus := setStatus st2.localStatus item.id ("✅ Completed")
              idx := st2.idx + 1 }
    else finalizeQueue st

/-- The state `on_run_queue` hands to the loop: index 0, driver active,
no statuses written yet. -/
def initialDriverState (items : List QueueItemRow) : QueueDriverState :=
  ⟨items, 0, true, [], [], [], [], [], false⟩

/-- One full manual queue run over a queue snapshot (already ordered by
`queue_order`, as `get_queued_items` returns it). -/
def runQueueFromStart (env : QueueDriverEnv) (items : List QueueItemRow) :
    QueueDriverState :=
  runQueueStep env (items.length + 1) (initialDriverState items)

/-! ## Schedule trigger and manual run entry
(`ui.py`: `on_run_queue`, `on_check_schedule_timer`) -/

/-- Python truthiness of an optional integer (`None` and `0` are falsy). -/
def truthyInt : Option Int → Bool
  | none => false
  | some t => t ≠ 0

/-- The slice of `MainWindow` state these two handlers read and write:
the driver flag, the single-synthesis flag, the persisted schedule slot
(`next_scheduled_run`), the queue snapshot and the current index. -/
structure UiState where
  queue_processing_active : Bool
  synthesis_in_progress : Bool
  schedule : Option Int
  queue_items : List QueueItemRow
  current_queue_item_index : Int
deriving DecidableEq

/-- `ui.py` `on_run_queue` up to the call of `process_next_queue_item`:
refuse on an empty queue; refuse when already active; otherwise clear the
schedule slot when one is set (truthy), raise the active flag, reset the
index, and start processing.  The second component tells whether processing
was started. -/
def on_run_queue (s : UiState) : UiState × Bool :=
  if s.queue_items.isEmpty then (s, false)
  else if s.queue_processing_active then (s, false)
  else
    let s1 := if truthyInt s.schedule then { s with schedule := none } else s
    ({ s1 with queue_processing_active := true, current_queue_item_index := 0 }, true)

/-- `ui.py` `on_check_schedule_timer`: return immediately while the driver
is active; return when no schedule is set or the slot is not positive;
when the scheduled time has been reached, clear the slot and invoke
`on_run_queue` unless the queue is empty or a synthesis is already in
progress.  The second component tells whether a run was started. -/
def on_check_schedule_timer (now : Int) (s : UiState) : UiState × Bool :=
  if s.queue_processing_active then (s, false)
  else
    match s.schedule with
    | none => (s, false)
    | some ts =>
      if ts ≤ 0 then (s, false)
      else if ts ≤ now then
        let s1 := { s with schedule := none }
        if s1.queue_items.isEmpty then (s1, false)
        else if s1.synthesis_in_progress || s1.queue_processing_active then (s1, false)
        else on_run_queue s1
      else (s, false)

/-! ## Theorems -/

/-- C4: for every input text, `apply_filters` with a missing, empty, or
entirely malformed rule source returns the input string unchanged (and, the
embedding being total, raises nothing): every unresolved source and every
line-level malformation is absorbed. -/
theorem apply_filters_unchanged_on_bad_source (text : String)
    (source : Option (List String))
    (h : source = none ∨
      ∃ lines, source = some lines ∧ ∀ l ∈ lines, parseFilterLine l = none) :
    apply_filters source text = text := by
  rcases h with h | ⟨lines, rfl, hml⟩
  · rw [h]
    rfl
  · show applyFilterRules (parseFilterRules lines) text = text
    have hnil : parseFilterRules lines = [] := List.filterMap_eq_nil_iff.mpr hml
    rw [hnil]
    rfl

/-- Witness for C4: a source whose every line is blank, a comment,
separator-free, or pattern-free leaves a concrete input untouched. -/
theorem apply_filters_unchanged_witness :
    apply_filters
      (some [("# comment line"), ("no separator here"), ("   "), (" ,, |x")])
      ("Hello, world") = ("Hello, world") :=
  apply_filters_unchanged_on_bad_source _ _ (Or.inr ⟨_, rfl, by decide⟩)

/-- C7: `find_good_chapters` returns exactly the document chapters whose
text exceeds 100 characters and whose name matches a chapter-like pattern;
when that set is empty it returns every document chapter with more than 10
characters of text, so the result is nonempty as soon as one document
chapter has non-trivial text. -/
theorem find_good_chapters_spec (cs : List DocChapter) (c0 : DocChapter)
    (hc0 : c0 ∈ cs) (hdoc : c0.isDocument = true)
    (hlen : 10 < c0.extracted_text.length) :
    (cs.filter (fun c => c.isDocument && is_chapter c) ≠ [] →
      find_good_chapters cs = cs.filter (fun c => c.isDocument && is_chapter c))
    ∧ (cs.filter (fun c => c.isDocument && is_chapter c) = [] →
      find_good_chapters cs
        = cs.filter (fun c => c.isDocument && decide (10 < c.extracted_text.length)))
    ∧ find_good_chapters cs ≠ [] := by
  have hfb : c0 ∈ cs.filter (fun c => c.isDocument && decide (10 < c.extracted_text.length)) := by
    rw [List.mem_filter]
    exact ⟨hc0, by simp [hdoc, hlen]⟩
  refine ⟨?_, ?_, ?_⟩
  · intro h
    simp only [find_good_chapters]
    rw [if_neg (by simpa [List.isEmpty_iff] using h)]
  · intro h
    simp only [find_good_chapters]
    rw [if_pos (by simp [List.isEmpty_iff, h])]
  · by_cases hP : cs.filter (fun c => c.isDocument && is_chapter c) = []
    · simp only [find_good_chapters]
      rw [if_pos (by simp [List.isEmpty_iff, hP])]
      exact List.ne_nil_of_mem hfb
    · simp only [find_good_chapters]
      rw [if_neg (by simpa [List.isEmpty_iff] using hP)]
      exact hP

/-- Witness for C7: a single document chapter whose name matches no
chapter-like pattern still yields a nonempty selection. -/
theorem find_good_chapters_witness :
    find_good_chapters [⟨("notes.xhtml"), ("0123456789ab"), true⟩] ≠ [] :=
  (find_good_chapters_spec [⟨("notes.xhtml"), ("0123456789ab"), true⟩]
    ⟨("notes.xhtml"), ("0123456789ab"), true⟩ (by decide) (by decide) (by decide)).2.2

/-- C9: staging a book whose source path equals an already-staged book's
source path is rejected: the store is returned unchanged (no book row and no
chapter rows are left behind), the book id is `None`, and the error class is
the integrity-violation one, which is distinct from the class produced by a
general store failure. -/
theorem add_staged_book_duplicate_rejected (db : StagingStore)
    (title author source_path output_folder : String) (chapters : List ChapterInput)
    (b : StagedBookRow) (hb : b ∈ db.books) (hsp : b.source_path = source_path) :
    add_staged_book false db title author source_path output_folder chapters
      = (db, none, some StoreError.integrityViolation)
    ∧ StoreError.integrityViolation ≠ StoreError.generalFailure
    ∧ (add_staged_book true db title author source_path output_folder chapters).2.2
      = some StoreError.generalFailure := by
  have hany : db.books.any (fun x => x.source_path = source_path) = true :=
    List.any_eq_true.mpr ⟨b, hb, by simp [hsp]⟩
  refine ⟨?_, by decide, rfl⟩
  simp [add_staged_book, hany]

/-- Witness for C9: re-staging a concrete path already present in a
one-book store is rejected with the store unchanged. -/
theorem add_staged_book_duplicate_witness :
    add_staged_book false ⟨[⟨1, ("B"), ("A"), ("/b.epub"), ("o"), false⟩], [], 2, 1⟩
      ("B2") ("A2") ("/b.epub") ("o2") []
      = (⟨[⟨1, ("B"), ("A"), ("/b.epub"), ("o"), false⟩], [], 2, 1⟩, none,
          some StoreError.integrityViolation) :=
  (add_staged_book_duplicate_rejected _ _ _ _ _ _
    ⟨1, ("B"), ("A"), ("/b.epub"), ("o"), false⟩ (by decide) rfl).1

/-- C8: starting a manual queue run while a schedule mark is set clears the
mark before processing begins (the state in which processing starts has an
empty schedule slot and the active flag raised), and the periodic scheduled
trigger firing while the driver is running returns the state unchanged and
starts nothing. -/
theorem schedule_precedence (s : UiState) (ts : Int) (busy : UiState) (now : Int)
    (hq : s.queue_items ≠ []) (ha : s.queue_processing_active = false)
    (hs : s.schedule = some ts) (hts : ts ≠ 0)
    (hbusy : busy.queue_processing_active = true) :
    ((on_run_queue s).1.schedule = none
      ∧ (on_run_queue s).1.queue_processing_active = true
      ∧ (on_run_queue s).2 = true)
    ∧ on_check_schedule_timer now busy = (busy, false) := by
  constructor
  · have hne : s.queue_items.isEmpty = false := by simp [List.isEmpty_iff, hq]
    simp [on_run_queue, hne, ha, truthyInt, hs, hts]
  · simp [on_check_schedule_timer, hbusy]

/-- Witness for C8: a concrete idle state with a set schedule and a nonempty
queue, and a concrete running state. -/
theorem schedule_precedence_witness :
    ((on_run_queue ⟨false, false, some 1700000000,
        [⟨1, 1, ("T"), some ("/a.epub"), none, ⟨none, none, none⟩, []⟩], -1⟩).1.schedule = none
      ∧ (on_run_queue ⟨false, false, some 1700000000,
        [⟨1, 1, ("T"), some ("/a.epub"), none, ⟨none, none, none⟩, []⟩], -1⟩).1.queue_processing_active = true
      ∧ (on_run_queue ⟨false, false, some 1700000000,
        [⟨1, 1, ("T"), some ("/a.epub"), none, ⟨none, none, none⟩, []⟩], -1⟩).2 = true)
    ∧ on_check_schedule_timer 1800000000 ⟨true, true, some 1700000000, [], 0⟩
      = (⟨true, true, some 1700000000, [], 0⟩, false) :=
  schedule_precedence ⟨false, false, some 1700000000,
      [⟨1, 1, ("T"), some ("/a.epub"), none, ⟨none, none, none⟩, []⟩], -1⟩
    1700000000 ⟨true, true, some 1700000000, [], 0⟩ 1800000000
    (by decide) rfl rfl (by decide) rfl

/-- C5 (amended): for a fixed positive throughput and a fixed positive
total, the progress computation succeeds (no division by zero), `eta` is
non-increasing and `progress` is non-decreasing as `processed` increases,
`progress` is always non-negative, and `progress` stays at most 100 as long
as `processed` does not exceed `total` — the source does not clamp, so the
bound 100 holds only under that proviso. -/
theorem progress_eta_monotone (total p1 p2 : Nat) (thr : ℚ)
    (htot : 0 < total) (hthr : 0 < thr) (h12 : p1 ≤ p2) :
    pyFloorDiv (p1 * 100) total = some (p1 * 100 / total)
    ∧ pyFloorDiv (p2 * 100) total = some (p2 * 100 / total)
    ∧ p1 * 100 / total ≤ p2 * 100 / total
    ∧ (p2 ≤ total → p2 * 100 / total ≤ 100)
    ∧ etaOf total p2 thr ≤ etaOf total p1 thr := by
  refine ⟨?_, ?_, ?_, ?_, ?_⟩
  · simp [pyFloorDiv, htot.ne']
  · simp [pyFloorDiv, htot.ne']
  · exact Nat.div_le_div_right (Nat.mul_le_mul_right 100 h12)
  · intro h
    calc p2 * 100 / total ≤ total * 100 / total :=
          Nat.div_le_div_right (Nat.mul_le_mul_right 100 h)
      _ = 100 := Nat.mul_div_cancel_left 100 htot
  · unfold etaOf
    apply div_le_div_of_nonneg_right ?_ hthr.le
    exact sub_le_sub_left (by exact_mod_cast h12) _

/-- Witness for C5: monotone progress and eta at total 10, processed 3 and 7,
throughput 1. -/
theorem progress_eta_monotone_witness :
    pyFloorDiv (3 * 100) 10 = some (3 * 100 / 10)
    ∧ pyFloorDiv (7 * 100) 10 = some (7 * 100 / 10)
    ∧ 3 * 100 / 10 ≤ 7 * 100 / 10
    ∧ (7 ≤ 10 → 7 * 100 / 10 ≤ 100)
    ∧ etaOf 10 7 1 ≤ etaOf 10 3 1 :=
  progress_eta_monotone 10 3 7 1 (by decide) (by norm_num) (by decide)

/-- C5 counterexample: the per-sentence update of `gen_audio_segments`
produces a progress of 110 once eleven characters have been processed
against a total of ten — the claimed bound `progress ≤ 100` fails, because
`processed` can exceed `total` (the intro text of the first chapter is
counted in `processed` but not in `total`). -/
theorem progress_exceeds_100 :
    processSentence ⟨10, 0, 1, 0, 10⟩ 11 = some ⟨10, 11, 1, 110, -1⟩
    ∧ ¬(110 ≤ 100) := by
  refine ⟨?_, by decide⟩
  show some _ = some _
  norm_num [processSentence, pyFloorDiv, etaOf]

/-- C6: the synthesis step on a chapter set with a zero total character
count (every selected chapter has empty extracted text) reaches the
per-sentence progress update — the first chapter is not skipped, because the
intro text pushes it over the 10-character threshold — and the update
divides by the zero total: the step raises `ZeroDivisionError` (`none`)
instead of being guarded. -/
theorem zero_total_divides_by_zero :
    chapterStep id (fun s => [s]) (fun _ => [[0]]) 1 ("Untitled Book")
      ("Unknown Author") ("") ("book_chapter_1.wav") [] ⟨0, 0, 50, 0, 0⟩ = none
    ∧ ¬((pyStrip (chapterText 1 ("Untitled Book") ("Unknown Author") (""))).length < 10) := by
  constructor
  · rfl
  · decide

/-- Helper: the existing-file branch of the chapter loop — when the output
path already exists the step only adds the chapter's text length to
`processed_chars` and posts `CORE_CHAPTER_FINISHED`. -/
theorem chapterStep_skip_of_exists (applyF : String → String)
    (sentSplit : String → List String) (tts : String → List AudioBuf)
    (i : Nat) (title creator rawText path : String) (fs : WavStore) (st : SynthStats)
    (hE : fsExists fs path = true) :
    chapterStep applyF sentSplit tts i title creator rawText path fs st
      = some ⟨fs,
          { st with processed_chars :=
              st.processed_chars + (chapterText i title creator rawText).length },
          [CoreEvent.chapterFinished], 0, false⟩ := by
  unfold chapterStep
  simp [hE]

/-- Helper: a first run that wrote the output file makes the path exist. -/
theorem fsExists_after_write (fs : WavStore) (path : String) (a : AudioBuf) :
    fsExists (fsWrite fs path a) path = true := by
  simp [fsExists, fsWrite]

/-- C1: when the target output file already exists, the Chapter Synthesis
Step performs no synthesis (`genCalls = 0`), writes no file, emits the
chapter-finished event, and leaves the file store unchanged; consequently,
after a first run that wrote the output file (one synthesis invocation), a
second run on the same chapter and path invokes no synthesis, writes
nothing, and still reports the chapter finished. -/
theorem chapter_step_idempotent (applyF : String → String)
    (sentSplit : String → List String) (tts : String → List AudioBuf)
    (i : Nat) (title creator rawText path : String) (st : SynthStats)
    (fsE : WavStore) (hE : fsExists fsE path = true)
    (fs0 : WavStore) (o1 : StepOut)
    (h0 : chapterStep applyF sentSplit tts i title creator rawText path fs0 st = some o1)
    (hw : o1.wrote = true) :
    chapterStep applyF sentSplit tts i title creator rawText path fsE st
      = some ⟨fsE,
          { st with processed_chars :=
              st.processed_chars + (chapterText i title creator rawText).length },
          [CoreEvent.chapterFinished], 0, false⟩
    ∧ o1.genCalls = 1
    ∧ chapterStep applyF sentSplit tts i title creator rawText path o1.fs o1.stats
      = some ⟨o1.fs,
          { o1.stats with processed_chars :=
              o1.stats.processed_chars + (chapterText i title creator rawText).length },
          [CoreEvent.chapterFinished], 0, false⟩ := by
  refine ⟨chapterStep_skip_of_exists _ _ _ _ _ _ _ _ _ _ hE, ?_⟩
  simp only [chapterStep] at h0
  split at h0
  · injection h0 with h0
    subst h0
    simp at hw
  · split at h0
    · injection h0 with h0
      subst h0
      simp at hw
    · split at h0
      · exact absurd h0 (by simp)
      · split at h0
        · injection h0 with h0
          subst h0
          simp at hw
        · injection h0 with h0
          subst h0
          exact ⟨rfl, chapterStep_skip_of_exists _ _ _ _ _ _ _ _ _ _
            (fsExists_after_write _ _ _)⟩

/-- Witness for C1: a concrete chapter whose first run writes the file; the
second run is the skip branch. -/
theorem chapter_step_idempotent_witness :
    chapterStep id (fun s => [s]) (fun _ => [[1]]) 2 ("T") ("A") ("0123456789X")
      ("b_chapter_2.wav") [(("b_chapter_2.wav"), [])] ⟨100, 0, 1, 0, 0⟩
      = some ⟨[(("b_chapter_2.wav"), [])], ⟨100, 11, 1, 0, 0⟩,
          [CoreEvent.chapterFinished], 0, false⟩
    ∧ (⟨[(("b_chapter_2.wav"), [1])], ⟨100, 11, 1, 11, etaOf 100 11 1⟩,
          [CoreEvent.chapterStarted, CoreEvent.chapterFinished], 1, true⟩ : StepOut).genCalls = 1
    ∧ chapterStep id (fun s => [s]) (fun _ => [[1]]) 2 ("T") ("A") ("0123456789X")
        ("b_chapter_2.wav")
        (⟨[(("b_chapter_2.wav"), [1])], ⟨100, 11, 1, 11, etaOf 100 11 1⟩,
          [CoreEvent.chapterStarted, CoreEvent.chapterFinished], 1, true⟩ : StepOut).fs
        (⟨[(("b_chapter_2.wav"), [1])], ⟨100, 11, 1, 11, etaOf 100 11 1⟩,
          [CoreEvent.chapterStarted, CoreEvent.chapterFinished], 1, true⟩ : StepOut).stats
      = some ⟨[(("b_chapter_2.wav"), [1])], ⟨100, 22, 1, 11, etaOf 100 11 1⟩,
          [CoreEvent.chapterFinished], 0, false⟩ :=
  chapter_step_idempotent id (fun s => [s]) (fun _ => [[1]]) 2 ("T") ("A")
    ("0123456789X") ("b_chapter_2.wav") ⟨100, 0, 1, 0, 0⟩
    [(("b_chapter_2.wav"), [])] rfl []
    ⟨[(("b_chapter_2.wav"), [1])], ⟨100, 11, 1, 11, etaOf 100 11 1⟩,
      [CoreEvent.chapterStarted, CoreEvent.chapterFinished], 1, true⟩
    rfl rfl

/-- C10: the text the synthesis pipeline receives for the chapter at
position 1 — and only that one — is the intro `'{title} – {creator}.\n\n'`
prepended to the chapter's stored text, before filtering; the intro is
nonempty, so both the first chapter's synthesized text and the
processed-character accounting (shown here on the skip branch, which adds
the full intro-bearing length) strictly exceed the stored chapter text. -/
theorem intro_prepended_to_first_chapter (applyF : String → String)
    (sentSplit : String → List String) (tts : String → List AudioBuf)
    (title creator rawText path : String) (fs : WavStore) (st : SynthStats)
    (i : Nat) (hi : i ≠ 1) (hE : fsExists fs path = true) :
    chapterText 1 title creator rawText = introText title creator ++ rawText
    ∧ chapterText i title creator rawText = rawText
    ∧ rawText.length < (chapterText 1 title creator rawText).length
    ∧ (chapterStep applyF sentSplit tts 1 title creator rawText path fs st).map
        (fun o => o.stats.processed_chars)
      = some (st.processed_chars + (introText title creator ++ rawText).length) := by
  refine ⟨by simp [chapterText], by simp [chapterText, hi], ?_, ?_⟩
  · have hrw : chapterText 1 title creator rawText = introText title creator ++ rawText := by
      simp [chapterText]
    rw [hrw, String.length_append]
    simp only [introText, String.length_append]
    have h3 : ((".\n\n" : String)).length = 3 := by decide
    omega
  · rw [chapterStep_skip_of_exists _ _ _ _ _ _ _ _ _ _ hE]
    simp [chapterText]

/-- Witness for C10: concrete titles and a two-chapter position. -/
theorem intro_prepended_witness :
    chapterText 1 ("My Book") ("An Author") ("Body text.")
      = introText ("My Book") ("An Author") ++ ("Body text.")
    ∧ chapterText 2 ("My Book") ("An Author") ("Body text.") = ("Body text.")
    ∧ ("Body text.").length < (chapterText 1 ("My Book") ("An Author") ("Body text.")).length
    ∧ (chapterStep id (fun s => [s]) (fun _ => [[1]]) 1 ("My Book") ("An Author")
        ("Body text.") ("p.wav") [(("p.wav"), [])] ⟨50, 0, 1, 0, 0⟩).map
          (fun o => o.stats.processed_chars)
      = some (0 + (introText ("My Book") ("An Author") ++ ("Body text.")).length) :=
  intro_prepended_to_first_chapter id (fun s => [s]) (fun _ => [[1]])
    ("My Book") ("An Author") ("Body text.") ("p.wav") [(("p.wav"), [])]
    ⟨50, 0, 1, 0, 0⟩ 2 (by decide) rfl

/-- Helper: a fold of `max` never drops below its initial value. -/
theorem init_le_foldl_max (l : List QueueRow) (a : Nat) :
    a ≤ l.foldl (fun m x => max m x.queue_order) a := by
  induction l generalizing a with
  | nil => exact le_refl a
  | cons x xs ih => exact le_trans (le_max_left a x.queue_order) (ih _)

/-- Helper: every stored order value is at most the table's maximum. -/
theorem order_le_foldl_max (l : List QueueRow) (r : QueueRow) (hr : r ∈ l) (a : Nat) :
    r.queue_order ≤ l.foldl (fun m x => max m x.queue_order) a := by
  induction l generalizing a with
  | nil => cases hr
  | cons x xs ih =>
    rcases List.mem_cons.mp hr with rfl | hr2
    · exact le_trans (le_max_right a r.queue_order) (init_le_foldl_max xs _)
    · exact ih hr2 _

/-- Helper: every stored order value is at most `get_max_queue_order`. -/
theorem order_le_max (t : QueueTable) (r : QueueRow) (hr : r ∈ t.rows) :
    r.queue_order ≤ get_max_queue_order t :=
  order_le_foldl_max t.rows r hr 0

/-- Helper: inserting bumps the maximum order by exactly one. -/
theorem max_after_insert (t : QueueTable) :
    get_max_queue_order (add_item_to_queue t).1 = get_max_queue_order t + 1 := by
  show List.foldl (fun m x => max m x.queue_order) 0
    (t.rows ++ ([⟨t.nextId, get_max_queue_order t + 1⟩] : List QueueRow)) = _
  rw [List.foldl_append]
  show max (get_max_queue_order t) (get_max_queue_order t + 1) = _
  exact max_eq_right (Nat.le_succ _)

/-- Helper: one interleaving step preserves distinctness of the stored
order values. -/
theorem queue_orders_nodup_step (t : QueueTable) (op : QueueOp)
    (h : (t.rows.map (fun r => r.queue_order)).Nodup) :
    (((applyQueueOp t op).rows.map (fun r => r.queue_order)).Nodup) := by
  cases op with
  | insert =>
    show (((t.rows ++ ([⟨t.nextId, get_max_queue_order t + 1⟩] : List QueueRow)).map
      (fun r => r.queue_order)).Nodup)
    rw [List.map_append]
    refine List.Nodup.append h (List.nodup_singleton _) ?_
    intro a ha hb
    rcases List.mem_map.mp ha with ⟨r, hr, rfl⟩
    have hb2 : r.queue_order = get_max_queue_order t + 1 := by simpa using hb
    have hle : r.queue_order ≤ get_max_queue_order t := order_le_max t r hr
    omega
  | remove id =>
    show (((t.rows.filter (fun r => r.id ≠ id)).map (fun r => r.queue_order)).Nodup)
    exact List.Nodup.sublist
      (List.Sublist.map (fun r : QueueRow => r.queue_order) (List.filter_sublist _)) h

/-- Helper: distinctness of stored order values is invariant under every
interleaving of inserts and removes. -/
theorem queue_orders_nodup_from (t : QueueTable) (ops : List QueueOp)
    (h : (t.rows.map (fun r => r.queue_order)).Nodup) :
    ((applyQueueOps t ops).rows.map (fun r => r.queue_order)).Nodup := by
  induction ops generalizing t with
  | nil => exact h
  | cons op ops ih => exact ih _ (queue_orders_nodup_step t op h)

/-- Helper: `n` consecutive inserts assign the orders `max+1, …, max+n`. -/
theorem assignedOrders_inserts (n : Nat) (t : QueueTable) :
    assignedOrders t (List.replicate n QueueOp.insert)
      = List.range' (get_max_queue_order t + 1) n := by
  induction n generalizing t with
  | zero => rfl
  | succ n ih =>
    rw [List.replicate_succ, List.range'_succ]
    show (add_item_to_queue t).2.2 :: assignedOrders (add_item_to_queue t).1 _ = _
    rw [ih, max_after_insert]
    rfl

/-- C2 (amended): every insertion assigns order `current maximum + 1` (so 1
on an empty queue); under every interleaving of inserts and removes the
stored entries carry pairwise distinct order values; and a run of inserts
with no intervening removes assigns the strictly increasing, gapless orders
`1, …, n`.  (Across remove interleavings the assigned values need not keep
increasing and stored values may have gaps — see the counterexample.) -/
theorem queue_order_assignment (t : QueueTable) (ops : List QueueOp) (n : Nat) :
    (add_item_to_queue t).2.2 = get_max_queue_order t + 1
    ∧ ((applyQueueOps emptyQueueTable ops).rows.map (fun r => r.queue_order)).Nodup
    ∧ assignedOrders emptyQueueTable (List.replicate n QueueOp.insert)
      = List.range' 1 n := by
  refine ⟨rfl, queue_orders_nodup_from _ _ (by simp [emptyQueueTable]), ?_⟩
  have h := assignedOrders_inserts n emptyQueueTable
  simpa [emptyQueueTable, get_max_queue_order] using h

/-- C2 counterexample: after removing the entry holding the maximal order,
the next insert reuses that order value — the orders assigned by repeated
inserts under this delete interleaving are `[1, 2, 2]`, which is not
strictly increasing; and removing a middle entry leaves the stored orders
`[1, 3]`, which has a gap. -/
theorem queue_order_reused_after_delete :
    assignedOrders emptyQueueTable
      [QueueOp.insert, QueueOp.insert, QueueOp.remove 2, QueueOp.insert] = [1, 2, 2]
    ∧ ¬ List.Chain' (fun a b => a < b) [1, 2, 2]
    ∧ ((applyQueueOps emptyQueueTable
        [QueueOp.insert, QueueOp.insert, QueueOp.insert, QueueOp.remove 2]).rows.map
          (fun r => r.queue_order)) = [1, 3] := by
  refine ⟨rfl, ?_, rfl⟩
  intro hch
  have h22 : (2:Nat) < 2 := (List.chain'_cons.mp (List.chain'_cons.mp hch).2).1
  omega

/-- Helper: a driver step over an item with resolvable chapters, no staged
book link, a truthy source path, valid settings and a successful synthesis
marks the item `in_progress` then `completed` and advances. -/
theorem runQueueStep_success (env : QueueDriverEnv) (fuel : Nat)
    (st : QueueDriverState) (h : st.idx < st.items.length)
    (ha : st.active = true)
    (hc : (st.items.get ⟨st.idx, h⟩).chapters.filterMap (resolveChapterText env.fetch) ≠ [])
    (hs : (st.items.get ⟨st.idx, h⟩).staged_book_id = none)
    (hp : truthyStr (st.items.get ⟨st.idx, h⟩).source_path = true)
    (hv : validateSettings (st.items.get ⟨st.idx, h⟩).settings = none)
    (ho : env.synthOutcome (st.items.get ⟨st.idx, h⟩).id = none) :
    runQueueStep env (fuel + 1) st = runQueueStep env fuel
      { st with
        idx := st.idx + 1
        dbStatus := setStatus (setStatus st.dbStatus (st.items.get ⟨st.idx, h⟩).id
          ("in_progress")) (st.items.get ⟨st.idx, h⟩).id ("completed")
        localStatus := setStatus (setStatus st.localStatus (st.items.get ⟨st.idx, h⟩).id
          ("⏳ In Progress")) (st.items.get ⟨st.idx, h⟩).id ("✅ Completed")
        synthStarted := st.synthStarted ++ [(st.items.get ⟨st.idx, h⟩).id]
        visited := st.visited ++ [(st.items.get ⟨st.idx, h⟩).id] } := by
  have hce : ((st.items.get ⟨st.idx, h⟩).chapters.filterMap
      (resolveChapterText env.fetch)).isEmpty = false := by
    cases hb : ((st.items.get ⟨st.idx, h⟩).chapters.filterMap
        (resolveChapterText env.fetch)).isEmpty
    · rfl
    · exact absurd (List.isEmpty_iff.mp hb) hc
  simp only [List.get_eq_getElem] at hce hs hp hv ho
  simp only [runQueueStep, ha, Bool.true_eq_false, if_false, h, dif_pos, hce,
    Bool.false_eq_true, hs, Option.isSome_none, hp, hv, ho, List.get_eq_getElem]

/-- Helper: a driver step over an item with zero resolvable chapters marks
it `in_progress` then `error` and advances without starting synthesis. -/
theorem runQueueStep_no_chapters (env : QueueDriverEnv) (fuel : Nat)
    (st : QueueDriverState) (h : st.idx < st.items.length)
    (ha : st.active = true)
    (hc : (st.items.get ⟨st.idx, h⟩).chapters.filterMap (resolveChapterText env.fetch) = []) :
    runQueueStep env (fuel + 1) st = runQueueStep env fuel
      { st with
        idx := st.idx + 1
        dbStatus := setStatus (setStatus st.dbStatus (st.items.get ⟨st.idx, h⟩).id
          ("in_progress")) (st.items.get ⟨st.idx, h⟩).id ("error")
        localStatus := setStatus (setStatus st.localStatus (st.items.get ⟨st.idx, h⟩).id
          ("⏳ In Progress")) (st.items.get ⟨st.idx, h⟩).id ("⚠️ Error (No Chapters Text)")
        visited := st.visited ++ [(st.items.get ⟨st.idx, h⟩).id] } := by
  have hce : ((st.items.get ⟨st.idx, h⟩).chapters.filterMap
      (resolveChapterText env.fetch)).isEmpty = true :=
    List.isEmpty_iff.mpr hc
  simp only [List.get_eq_getElem] at hce
  simp only [runQueueStep, ha, Bool.true_eq_false, if_false, h, dif_pos, hce,
    if_true, List.get_eq_getElem]

/-- Helper: past the last item the driver finalizes. -/
theorem runQueueStep_finalize (env : QueueDriverEnv) (fuel : Nat)
    (st : QueueDriverState) (h : ¬ st.idx < st.items.length) :
    runQueueStep env (fuel + 1) st = finalizeQueue st := by
  simp only [runQueueStep, h, dif_neg]
  split
  · rfl
  · rfl

/-- C3: for a queue of three pending entries in ascending queue order where
entry 2 has zero resolvable chapters (no truthy inline text and no text
delivered by the staged-chapter reference fetch) and entries 1 and 3 are
processable (resolvable chapters, truthy source path, no staged-book link,
valid settings, successful synthesis), a run handles the entries in
ascending order, marks entry 2 `error` in the store without ever starting
synthesis for it, marks entries 1 and 3 `completed`, and leaves the driver
idle after entry 3. -/
theorem queue_partial_failure (env : QueueDriverEnv) (i1 i2 i3 : QueueItemRow)
    (hid12 : i1.id ≠ i2.id) (hid13 : i1.id ≠ i3.id) (hid23 : i2.id ≠ i3.id)
    (hord12 : i1.queue_order < i2.queue_order) (hord23 : i2.queue_order < i3.queue_order)
    (h2c : i2.chapters.filterMap (resolveChapterText env.fetch) = [])
    (h1c : i1.chapters.filterMap (resolveChapterText env.fetch) ≠ [])
    (h3c : i3.chapters.filterMap (resolveChapterText env.fetch) ≠ [])
    (h1p : truthyStr i1.source_path = true) (h3p : truthyStr i3.source_path = true)
    (h1s : i1.staged_book_id = none) (h3s : i3.staged_book_id = none)
    (h1v : validateSettings i1.settings = none) (h3v : validateSettings i3.settings = none)
    (h1o : env.synthOutcome i1.id = none) (h3o : env.synthOutcome i3.id = none) :
    statusOf (runQueueFromStart env [i1, i2, i3]).dbStatus i1.id = some ("completed")
    ∧ statusOf (runQueueFromStart env [i1, i2, i3]).dbStatus i2.id = some ("error")
    ∧ statusOf (runQueueFromStart env [i1, i2, i3]).dbStatus i3.id = some ("completed")
    ∧ (runQueueFromStart env [i1, i2, i3]).synthStarted = [i1.id, i3.id]
    ∧ (runQueueFromStart env [i1, i2, i3]).visited = [i1.id, i2.id, i3.id]
    ∧ (runQueueFromStart env [i1, i2, i3]).active = false := by
  have hrun : runQueueFromStart env [i1, i2, i3] = finalizeQueue
      ⟨[i1, i2, i3], 3, true,
        [(i3.id, ("completed")), (i3.id, ("in_progress")),
         (i2.id, ("error")), (i2.id, ("in_progress")),
         (i1.id, ("completed")), (i1.id, ("in_progress"))],
        [(i3.id, ("✅ Completed")), (i3.id, ("⏳ In Progress")),
         (i2.id, ("⚠️ Error (No Chapters Text)")), (i2.id, ("⏳ In Progress")),
         (i1.id, ("✅ Completed")), (i1.id, ("⏳ In Progress"))],
        [i1.id, i3.id], [i1.id, i2.id, i3.id], [], false⟩ := by
    show runQueueStep env ([i1, i2, i3].length + 1) (initialDriverState [i1, i2, i3]) = _
    rw [runQueueStep_success env ([i1, i2, i3].length) (initialDriverState [i1, i2, i3])
      (of_decide_eq_true rfl) rfl h1c h1s h1p h1v h1o]
    show runQueueStep env (2 + 1)
      (⟨[i1, i2, i3], 1, true,
        [(i1.id, ("completed")), (i1.id, ("in_progress"))],
        [(i1.id, ("✅ Completed")), (i1.id, ("⏳ In Progress"))],
        [i1.id], [i1.id], [], false⟩ : QueueDriverState) = _
    rw [runQueueStep_no_chapters env 2
      (⟨[i1, i2, i3], 1, true,
        [(i1.id, ("completed")), (i1.id, ("in_progress"))],
        [(i1.id, ("✅ Completed")), (i1.id, ("⏳ In Progress"))],
        [i1.id], [i1.id], [], false⟩ : QueueDriverState)
      (of_decide_eq_true rfl) rfl h2c]
    show runQueueStep env (1 + 1)
      (⟨[i1, i2, i3], 2, true,
        [(i2.id, ("error")), (i2.id, ("in_progress")),
         (i1.id, ("completed")), (i1.id, ("in_progress"))],
        [(i2.id, ("⚠️ Error (No Chapters Text)")), (i2.id, ("⏳ In Progress")),
         (i1.id, ("✅ Completed")), (i1.id, ("⏳ In Progress"))],
        [i1.id], [i1.id, i2.id], [], false⟩ : QueueDriverState) = _
    rw [runQueueStep_success env 1
      (⟨[i1, i2, i3], 2, true,
        [(i2.id, ("error")), (i2.id, ("in_progress")),
         (i1.id, ("completed")), (i1.id, ("in_progress"))],
        [(i2.id, ("⚠️ Error (No Chapters Text)")), (i2.id, ("⏳ In Progress")),
         (i1.id, ("✅ Completed")), (i1.id, ("⏳ In Progress"))],
        [i1.id], [i1.id, i2.id], [], false⟩ : QueueDriverState)
      (of_decide_eq_true rfl) rfl h3c h3s h3p h3v h3o]
    show runQueueStep env (0 + 1)
      (⟨[i1, i2, i3], 3, true,
        [(i3.id, ("completed")), (i3.id, ("in_progress")),
         (i2.id, ("error")), (i2.id, ("in_progress")),
         (i1.id, ("completed")), (i1.id, ("in_progress"))],
        [(i3.id, ("✅ Completed")), (i3.id, ("⏳ In Progress")),
         (i2.id, ("⚠️ Error (No Chapters Text)")), (i2.id, ("⏳ In Progress")),
         (i1.id, ("✅ Completed")), (i1.id, ("⏳ In Progress"))],
        [i1.id, i3.id], [i1.id, i2.id, i3.id], [], false⟩ : QueueDriverState) = _
    rw [runQueueStep_finalize env 0
      (⟨[i1, i2, i3], 3, true,
        [(i3.id, ("completed")), (i3.id, ("in_progress")),
         (i2.id, ("error")), (i2.id, ("in_progress")),
         (i1.id, ("completed")), (i1.id, ("in_progress"))],
        [(i3.id, ("✅ Completed")), (i3.id, ("⏳ In Progress")),
         (i2.id, ("⚠️ Error (No Chapters Text)")), (i2.id, ("⏳ In Progress")),
         (i1.id, ("✅ Completed")), (i1.id, ("⏳ In Progress"))],
        [i1.id, i3.id], [i1.id, i2.id, i3.id], [], false⟩ : QueueDriverState)
      (of_decide_eq_true rfl)]
  rw [hrun]
  refine ⟨?_, ?_, ?_, rfl, rfl, rfl⟩
  · simp [finalizeQueue, statusOf, List.find?, Ne.symm hid13, Ne.symm hid12]
  · simp [finalizeQueue, statusOf, List.find?, Ne.symm hid23, hid12]
  · simp [finalizeQueue, statusOf, List.find?]

/-- Witness for C3: a concrete three-entry queue where entry 2's only
chapter has no inline text and a dangling staged-chapter reference. -/
theorem queue_partial_failure_witness :
    statusOf (runQueueFromStart ⟨fun _ => none, fun _ => none⟩
      [⟨1, 1, ("Book One"), some ("/a.epub"), none,
          ⟨some ("af_sky"), some (some 1), some ("out")⟩, [⟨none, ("c"), some ("text one")⟩]⟩,
       ⟨2, 2, ("Book Two"), some ("/b.epub"), none,
          ⟨some ("af_sky"), some (some 1), some ("out")⟩, [⟨some 7, ("c"), none⟩]⟩,
       ⟨3, 3, ("Book Three"), some ("/c.epub"), none,
          ⟨some ("af_sky"), some (some 1), some ("out")⟩, [⟨none, ("c"), some ("text three")⟩]⟩]).dbStatus 1
      = some ("completed")
    ∧ statusOf (runQueueFromStart ⟨fun _ => none, fun _ => none⟩
      [⟨1, 1, ("Book One"), some ("/a.epub"), none,
          ⟨some ("af_sky"), some (some 1), some ("out")⟩, [⟨none, ("c"), some ("text one")⟩]⟩,
       ⟨2, 2, ("Book Two"), some ("/b.epub"), none,
          ⟨some ("af_sky"), some (some 1), some ("out")⟩, [⟨some 7, ("c"), none⟩]⟩,
       ⟨3, 3, ("Book Three"), some ("/c.epub"), none,
          ⟨some ("af_sky"), some (some 1), some ("out")⟩, [⟨none, ("c"), some ("text three")⟩]⟩]).dbStatus 2
      = some ("error")
    ∧ statusOf (runQueueFromStart ⟨fun _ => none, fun _ => none⟩
      [⟨1, 1, ("Book One"), some ("/a.epub"), none,
          ⟨some ("af_sky"), some (some 1), some ("out")⟩, [⟨none, ("c"), some ("text one")⟩]⟩,
       ⟨2, 2, ("Book Two"), some ("/b.epub"), none,
          ⟨some ("af_sky"), some (some 1), some ("out")⟩, [⟨some 7, ("c"), none⟩]⟩,
       ⟨3, 3, ("Book Three"), some ("/c.epub"), none,
          ⟨some ("af_sky"), some (some 1), some ("out")⟩, [⟨none, ("c"), some ("text three")⟩]⟩]).dbStatus 3
      = some ("completed")
    ∧ (runQueueFromStart ⟨fun _ => none, fun _ => none⟩
      [⟨1, 1, ("Book One"), some ("/a.epub"), none,
          ⟨some ("af_sky"), some (some 1), some ("out")⟩, [⟨none, ("c"), some ("text one")⟩]⟩,
       ⟨2, 2, ("Book Two"), some ("/b.epub"), none,
          ⟨some ("af_sky"), some (some 1), some ("out")⟩, [⟨some 7, ("c"), none⟩]⟩,
       ⟨3, 3, ("Book Three"), some ("/c.epub"), none,
          ⟨some ("af_sky"), some (some 1), some ("out")⟩, [⟨none, ("c"), some ("text three")⟩]⟩]).synthStarted
      = [1, 3]
    ∧ (runQueueFromStart ⟨fun _ => none, fun _ => none⟩
      [⟨1, 1, ("Book One"), some ("/a.epub"), none,
          ⟨some ("af_sky"), some (some 1), some ("out")⟩, [⟨none, ("c"), some ("text one")⟩]⟩,
       ⟨2, 2, ("Book Two"), some ("/b.epub"), none,
          ⟨some ("af_sky"), some (some 1), some ("out")⟩, [⟨some 7, ("c"), none⟩]⟩,
       ⟨3, 3, ("Book Three"), some ("/c.epub"), none,
          ⟨some ("af_sky"), some (some 1), some ("out")⟩, [⟨none, ("c"), some ("text three")⟩]⟩]).visited
      = [1, 2, 3]
    ∧ (runQueueFromStart ⟨fun _ => none, fun _ => none⟩
      [⟨1, 1, ("Book One"), some ("/a.epub"), none,
          ⟨some ("af_sky"), some (some 1), some ("out")⟩, [⟨none, ("c"), some ("text one")⟩]⟩,
       ⟨2, 2, ("Book Two"), some ("/b.epub"), none,
          ⟨some ("af_sky"), some (some 1), some ("out")⟩, [⟨some 7, ("c"), none⟩]⟩,
       ⟨3, 3, ("Book Three"), some ("/c.epub"), none,
          ⟨some ("af_sky"), some (some 1), some ("out")⟩, [⟨none, ("c"), some ("text three")⟩]⟩]).active
      = false :=
  queue_partial_failure ⟨fun _ => none, fun _ => none⟩
    ⟨1, 1, ("Book One"), some ("/a.epub"), none,
      ⟨some ("af_sky"), some (some 1), some ("out")⟩, [⟨none, ("c"), some ("text one")⟩]⟩
    ⟨2, 2, ("Book Two"), some ("/b.epub"), none,
      ⟨some ("af_sky"), some (some 1), some ("out")⟩, [⟨some 7, ("c"), none⟩]⟩
    ⟨3, 3, ("Book Three"), some ("/c.epub"), none,
      ⟨some ("af_sky"), some (some 1), some ("out")⟩, [⟨none, ("c"), some ("text three")⟩]⟩
    (by decide) (by decide) (by decide) (by decide) (by decide)
    rfl (by decide) (by decide) rfl rfl rfl rfl rfl rfl rfl rfl

end Audiblez
